import Mathlib

/-!
Shallow embedding of the SDSS adaptive-moments engine of
`src/src/shape/SdssShape.cc` (namespace `lsst::meas::algorithms`).

Modelling conventions:
* machine `float`/`double` values are modelled as exact real numbers;
  the machine-epsilon constants the source compares against are kept as the
  exact rationals 2^-23 (float) and 2^-52 (double);
* a quiet NaN only occurs in this code as a sentinel (an unset shape field,
  the flux-error placeholder); those places are modelled with `Option ℝ`,
  `none` standing for NaN;
* a C `static_cast<int>` of a real value truncates toward zero, embodied in
  `truncInt` below;
* `assert` statements of the source are not modelled (they vanish in NDEBUG
  builds and none of the verified properties concerns them).
-/

namespace Sdss

noncomputable section

/-- Iteration cap of the adaptive loop (`MAXIT`, SdssShape.cc line 55). -/
def MAXIT : ℕ := 100

/-- Convergence tolerance on e1/e2 (`TOL1 = 0.00001`, line 60). -/
def TOL1 : ℝ := 1 / 100000

/-- Convergence tolerance on sigma11_ow (`TOL2 = 0.0001`, line 61). -/
def TOL2 : ℝ := 1 / 10000

/-- Machine epsilon of a single-precision float, 2^-23, the constant
`std::numeric_limits<float>::epsilon()` used by `getWeights`. -/
def floatEps : ℝ := 1 / 8388608

/-- Machine epsilon of a double, 2^-52, the constant
`std::numeric_limits<double>::epsilon()` used by `calc_fisher`. -/
def doubleEps : ℝ := 1 / 4503599627370496

/-- Integer conversion by truncation toward zero: the semantics of the
C `static_cast<int>` applied to a real value. -/
def truncInt (x : ℝ) : ℤ := if 0 ≤ x then ⌊x⌋ else -⌊-x⌋

/-- Integer bounding box `[x0,x1] × [y0,y1]` (a `lsst::afw::geom::BoxI`). -/
structure Box where
  x0 : ℤ
  y0 : ℤ
  x1 : ℤ
  y1 : ℤ

/-- Embedding of `set_amom_bbox` (SdssShape.cc lines 213-244): bounding box
for the adaptive-moment accumulation. -/
def set_amom_bbox (width height : ℤ) (xcen ycen : ℝ)
    (sigma11_w _sigma12_w sigma22_w : ℝ) (maxRad : ℝ) : Box :=
  let rad0 : ℝ := 4 * Real.sqrt (if sigma11_w > sigma22_w then sigma11_w else sigma22_w)
  let rad : ℝ := if rad0 > maxRad then maxRad else rad0
  let jx0 : ℤ := truncInt (xcen - rad - 1/2)
  let ix0 : ℤ := if jx0 < 0 then 0 else jx0
  let jy0 : ℤ := truncInt (ycen - rad - 1/2)
  let iy0 : ℤ := if jy0 < 0 then 0 else jy0
  let jx1 : ℤ := truncInt (xcen + rad + 1/2)
  let ix1 : ℤ := if width ≤ jx1 then width - 1 else jx1
  let jy1 : ℤ := truncInt (ycen + rad + 1/2)
  let iy1 : ℤ := if height ≤ jy1 then height - 1 else jy1
  ⟨ix0, iy0, ix1, iy1⟩

/-- Result record of `getWeights`: the `boost::tuple<std::pair<bool,double>,
double, double, double>` of the source. -/
structure GW where
  success : Bool
  det : ℝ
  w11 : ℝ
  w12 : ℝ
  w22 : ℝ

/-- Embedding of `getWeights` (SdssShape.cc lines 167-199).

The NaN-input branch of the source (which returns `success = false`) cannot
fire on exact reals and is omitted; where a caller can feed NaN
(`getFixedMomentsFlux`), the NaN is modelled as `Option ℝ` at that boundary.

Degenerate branch (determinant below float epsilon) —
Modelled from the spec: the `Quadrupole`/`Axes` conversions used there live in
`lsst::afw::geom::ellipses`, which is not part of this repository's sources.
Per the spec, the covariance is converted to principal axes, 1/12 is added in
quadrature to each axis length, and the result is converted back and inverted.
Adding 1/12 to both squared axis lengths of a symmetric matrix is adding
`(1/12)·I`, so the regularized covariance is
`[[sigma11 + 1/12, sigma12], [sigma12, sigma22 + 1/12]]`,
whose inverse supplies the returned weights (entries (0,0), (1,0), (1,1)). -/
def getWeights (sigma11 sigma12 sigma22 : ℝ) : GW :=
  let det := sigma11 * sigma22 - sigma12 * sigma12
  if det < floatEps then
    let q11 := sigma11 + 1/12
    let q22 := sigma22 + 1/12
    let det2 := q11 * q22 - sigma12 * sigma12
    ⟨true, det2, q22 / det2, -sigma12 / det2, q11 / det2⟩
  else
    ⟨true, det, sigma22 / det, -sigma12 / det, sigma11 / det⟩

/-- Smaller eigenvalue of the symmetric matrix `[[s11, s12], [s12, s22]]`:
the squared minor-axis length of the corresponding ellipse, i.e. the quantity
to which the degenerate branch of `getWeights` adds 1/12. -/
def eigMin (s11 s12 s22 : ℝ) : ℝ :=
  ((s11 + s22) - Real.sqrt ((s11 - s22) ^ 2 + 4 * s12 ^ 2)) / 2

/-- Embedding of `getInterp` (SdssShape.cc lines 202-205): should sub-pixel
interpolation be used? (`xinterp = 0.25`.) -/
def getInterp (sigma11 sigma22 det : ℝ) : Bool :=
  if sigma11 < 1/4 ∨ sigma22 < 1/4 ∨ det < 1/16 then true else false

/-- Embedding of `calc_fisher` (SdssShape.cc lines 85-136).  The two
`LSST_EXCEPT` throws on violated preconditions are modelled as `none`. -/
def calc_fisher (A sigma11W sigma12W sigma22W bkgd_var : ℝ) :
    Option (Matrix (Fin 4) (Fin 4) ℝ) :=
  let D := sigma11W * sigma22W - sigma12W * sigma12W
  if D ≤ doubleEps then none
  else if bkgd_var ≤ 0 then none
  else
    let F := Real.pi * Real.sqrt D / bkgd_var
    let fac := F * A / (4 * D)
    let fac2 := 3 * F * A * A / (16 * D * D)
    some (Matrix.of
      ![![F, fac * sigma22W, fac * sigma11W, -fac * 2 * sigma12W],
        ![fac * sigma22W, fac2 * sigma22W * sigma22W,
          fac2 * 4 * (sigma12W * sigma12W + D / 3) / 4,
          fac2 * (-2 * sigma22W * sigma12W)],
        ![fac * sigma11W, fac2 * 4 * (sigma12W * sigma12W + D / 3) / 4,
          fac2 * sigma11W * sigma11W,
          fac2 * (-2 * sigma11W * sigma12W)],
        ![-fac * 2 * sigma12W, fac2 * (-2 * sigma22W * sigma12W),
          fac2 * (-2 * sigma11W * sigma12W),
          fac2 * 4 * (sigma12W * sigma12W + D / 3)]])

/-- Rectangular pixel region: the read-only image accessor the engine
consumes (`ImageAdaptor<ImageT>::getImage`). -/
structure Image where
  width : ℤ
  height : ℤ
  pix : ℤ → ℤ → ℝ

/-- The seven sums accumulated by `calcmom`:
`(sum, sumx, sumy, sumxx, sumxy, sumyy, sums4)`. -/
@[ext]
structure Moments where
  sum : ℝ
  sumx : ℝ
  sumy : ℝ
  sumxx : ℝ
  sumxy : ℝ
  sumyy : ℝ
  sums4 : ℝ

/-- All-zero moment sums (the initialisation `sum = sumx = ... = 0`). -/
def Moments.zero : Moments := ⟨0, 0, 0, 0, 0, 0, 0⟩

/-- Double sum of a scalar over the (inclusive) pixel box, row-major like the
nested loops of `calcmom`. -/
def boxSum (b : Box) (g : ℤ → ℤ → ℝ) : ℝ :=
  ∑ i in Finset.Icc b.y0 b.y1, ∑ j in Finset.Icc b.x0 b.x1, g j i

/-- Double sum of a scalar over the 4×4 sub-pixel sample grid. -/
def subGrid16 (g : ℕ → ℕ → ℝ) : ℝ :=
  ∑ a in Finset.range 4, ∑ b in Finset.range 4, g a b

/-- Corner exponent `cx²·w11 + cy²·w22 + 2·cx·cy·w12` evaluated by the
interpolated path of `calcmom` at a sub-pixel corner `(cx, cy)`. -/
def cornerExpon (w11 w12 w22 cx cy : ℝ) : ℝ :=
  cx ^ 2 * w11 + cy ^ 2 * w22 + 2 * cx * cy * w12

/-- One sub-sample of the 4×4 grid inside a pixel cell (interpolated path of
`calcmom`, lines 314-348): `a` indexes `Y`, `b` indexes `X`, both stepping by
0.25 upward from the low corner `(xl, yl)`.  In `fluxOnly` mode only the
plain sum is accumulated (the `if (!fluxOnly)` guard of the source). -/
def subContrib (fluxOnly : Bool) (xcen ycen w11 w12 w22 tmod xl yl : ℝ)
    (a b : ℕ) : Moments :=
  let X := xl + (b : ℝ) * (1/4)
  let Y := yl + (a : ℝ) * (1/4)
  let interpX2 := X ^ 2
  let interpXy := X * Y
  let interpY2 := Y ^ 2
  let expon := interpX2 * w11 + 2 * interpXy * w12 + interpY2 * w22
  let weight := Real.exp (-(expon / 2))
  let ymod := tmod * weight
  if fluxOnly then ⟨ymod, 0, 0, 0, 0, 0, 0⟩
  else ⟨ymod, ymod * (X + xcen), ymod * (Y + ycen), interpX2 * ymod,
        interpXy * ymod, interpY2 * ymod, expon ^ 2 * ymod⟩

/-- Moment sums of the full 4×4 sub-pixel grid of one cell. -/
def subGridMoments (fluxOnly : Bool) (xcen ycen w11 w12 w22 tmod xl yl : ℝ) :
    Moments :=
  { sum := subGrid16 (fun a b =>
      (subContrib fluxOnly xcen ycen w11 w12 w22 tmod xl yl a b).sum),
    sumx := subGrid16 (fun a b =>
      (subContrib fluxOnly xcen ycen w11 w12 w22 tmod xl yl a b).sumx),
    sumy := subGrid16 (fun a b =>
      (subContrib fluxOnly xcen ycen w11 w12 w22 tmod xl yl a b).sumy),
    sumxx := subGrid16 (fun a b =>
      (subContrib fluxOnly xcen ycen w11 w12 w22 tmod xl yl a b).sumxx),
    sumxy := subGrid16 (fun a b =>
      (subContrib fluxOnly xcen ycen w11 w12 w22 tmod xl yl a b).sumxy),
    sumyy := subGrid16 (fun a b =>
      (subContrib fluxOnly xcen ycen w11 w12 w22 tmod xl yl a b).sumyy),
    sums4 := subGrid16 (fun a b =>
      (subContrib fluxOnly xcen ycen w11 w12 w22 tmod xl yl a b).sums4) }

/-- Per-pixel contribution of the interpolated path of `calcmom`
(lines 300-350): evaluate the exponent at the four corners of the
0.75-pixel-wide cell (offsets ±0.375), take the maximum, and accumulate the
4×4 sub-grid only when that maximum is at most 9. -/
def interpContrib (fluxOnly : Bool) (xcen ycen bkgd w11 w12 w22 v : ℝ)
    (j i : ℤ) : Moments :=
  let x := (j : ℝ) - xcen
  let y := (i : ℝ) - ycen
  let xl := x - 3/8
  let xh := x + 3/8
  let yl := y - 3/8
  let yh := y + 3/8
  let e1 := cornerExpon w11 w12 w22 xl yl
  let e2 := cornerExpon w11 w12 w22 xh yh
  let e3 := cornerExpon w11 w12 w22 xl yh
  let e4 := cornerExpon w11 w12 w22 xh yl
  let expon := max (max (max e1 e2) e3) e4
  if expon ≤ 9 then subGridMoments fluxOnly xcen ycen w11 w12 w22 (v - bkgd) xl yl
  else Moments.zero

/-- Per-pixel contribution of the non-interpolated path of `calcmom`
(lines 351-385): a pixel contributes iff its exponent is at most 14. -/
def plainContrib (fluxOnly : Bool) (xcen ycen bkgd w11 w12 w22 v : ℝ)
    (j i : ℤ) : Moments :=
  let x := (j : ℝ) - xcen
  let y := (i : ℝ) - ycen
  let x2 := x ^ 2
  let xy := x * y
  let y2 := y ^ 2
  let expon := x2 * w11 + 2 * xy * w12 + y2 * w22
  if expon ≤ 14 then
    let weight := Real.exp (-(expon / 2))
    let ymod := (v - bkgd) * weight
    if fluxOnly then ⟨ymod, 0, 0, 0, 0, 0, 0⟩
    else ⟨ymod, ymod * (j : ℝ), ymod * (i : ℝ), x2 * ymod, xy * ymod,
          y2 * ymod, expon ^ 2 * ymod⟩
  else Moments.zero

/-- Contribution of one pixel of the box, on the path selected by the
interpolation flag. -/
def pixContrib (fluxOnly interpflag : Bool) (xcen ycen bkgd w11 w12 w22 v : ℝ)
    (j i : ℤ) : Moments :=
  if interpflag then interpContrib fluxOnly xcen ycen bkgd w11 w12 w22 v j i
  else plainContrib fluxOnly xcen ycen bkgd w11 w12 w22 v j i

/-- Moment sums accumulated by the double loop of `calcmom` over the box. -/
def boxMoments (fluxOnly interpflag : Bool) (img : Image)
    (xcen ycen bkgd w11 w12 w22 : ℝ) (b : Box) : Moments :=
  { sum := boxSum b (fun j i =>
      (pixContrib fluxOnly interpflag xcen ycen bkgd w11 w12 w22 (img.pix j i) j i).sum),
    sumx := boxSum b (fun j i =>
      (pixContrib fluxOnly interpflag xcen ycen bkgd w11 w12 w22 (img.pix j i) j i).sumx),
    sumy := boxSum b (fun j i =>
      (pixContrib fluxOnly interpflag xcen ycen bkgd w11 w12 w22 (img.pix j i) j i).sumy),
    sumxx := boxSum b (fun j i =>
      (pixContrib fluxOnly interpflag xcen ycen bkgd w11 w12 w22 (img.pix j i) j i).sumxx),
    sumxy := boxSum b (fun j i =>
      (pixContrib fluxOnly interpflag xcen ycen bkgd w11 w12 w22 (img.pix j i) j i).sumxy),
    sumyy := boxSum b (fun j i =>
      (pixContrib fluxOnly interpflag xcen ycen bkgd w11 w12 w22 (img.pix j i) j i).sumyy),
    sums4 := boxSum b (fun j i =>
      (pixContrib fluxOnly interpflag xcen ycen bkgd w11 w12 w22 (img.pix j i) j i).sums4) }

/-- Result of `calcmom`.  `earlyFail` is a `-1` return before the loop (weights
too large, or box out of bounds): the caller's sum variables are left
untouched.  `computed m ok` is the state after the loop: the sums `m` have
been written through the output pointers, and the return value is 0 when `ok`
and `-1` otherwise (the final non-positive-sums check of full mode). -/
inductive CalcRet where
  | earlyFail : CalcRet
  | computed : Moments → Bool → CalcRet

/-- Did this `calcmom` call return `-1`? -/
def CalcRet.isFail : CalcRet → Bool
  | .earlyFail => true
  | .computed _ ok => !ok

/-- Embedding of `calcmom` (SdssShape.cc lines 250-413). -/
def calcmom (fluxOnly : Bool) (img : Image) (xcen ycen : ℝ) (bbox : Box)
    (bkgd : ℝ) (interpflag : Bool) (w11 w12 w22 : ℝ) : CalcRet :=
  if 1000000 < |w11| ∨ 1000000 < |w12| ∨ 1000000 < |w22| then .earlyFail
  else if bbox.x0 < 0 ∨ img.width ≤ bbox.x1 ∨ bbox.y0 < 0 ∨ img.height ≤ bbox.y1 then
    .earlyFail
  else
    .computed (boxMoments fluxOnly interpflag img xcen ycen bkgd w11 w12 w22 bbox)
      (if fluxOnly = true ∨
          (0 < (boxMoments fluxOnly interpflag img xcen ycen bkgd w11 w12 w22 bbox).sum ∧
            0 < (boxMoments fluxOnly interpflag img xcen ycen bkgd w11 w12 w22 bbox).sumxx ∧
            0 < (boxMoments fluxOnly interpflag img xcen ycen bkgd w11 w12 w22 bbox).sumyy)
        then true else false)

/-- Embedding of `getFixedMomentsFlux` (SdssShape.cc lines 665-695).  The NaN
sentinels of the source are modelled as `none`: the shape moments are `Option ℝ`
inputs (a `none` making the NaN check inside `getWeights` fire), and the
flux-error slot is never computed.  The return code of the `calcmom` call is
ignored by the source, so on an early failure the flux local keeps its
initial value 0. -/
def getFixedMomentsFlux (img : Image) (bkgd xcen ycen : ℝ)
    (shapeIxx shapeIxy shapeIyy : Option ℝ) : Option ℝ × Option ℝ :=
  match shapeIxx, shapeIxy, shapeIyy with
  | some s11, some s12, some s22 =>
    if (getWeights s11 s12 s22).success = false then (none, none)
    else
      match calcmom true img xcen ycen
          (set_amom_bbox img.width img.height xcen ycen s11 s12 s22 1000) bkgd
          (getInterp s11 s22 (getWeights s11 s12 s22).det)
          (getWeights s11 s12 s22).w11 (getWeights s11 s12 s22).w12
          (getWeights s11 s12 s22).w22 with
      | .earlyFail => (some 0, none)
      | .computed m _ => (some m.sum, none)
  | _, _, _ => (none, none)

/-- Concrete 1×1 image whose single pixel has value 0, used to evaluate the
embedding at concrete inputs. -/
def zeroImg : Image := ⟨1, 1, fun _ _ => 0⟩

/-- Status flags raised on the shape record (`Flags::SHAPE_UNWEIGHTED`,
`SHAPE_UNWEIGHTED_BAD`, `SHAPE_MAXITER`, `SHAPE_SHIFT`). -/
structure Flags where
  unweighted : Bool := false
  unweightedBad : Bool := false
  maxIter : Bool := false
  shift : Bool := false

/-- Local state of one `getAdaptiveMoments` call while the adaptive loop
runs: the loop counter, the latched interpolation flag, the current weights
and weighting covariance, the convergence trackers, the last bounding box and
moment sums, the running amplitude and centroid estimate, and the flags
raised so far (lines 433-459 of the source). -/
structure AmomState where
  iter : ℕ
  interpflag : Bool
  w11 : ℝ
  w12 : ℝ
  w22 : ℝ
  sigma11W : ℝ
  sigma12W : ℝ
  sigma22W : ℝ
  e1_old : ℝ
  e2_old : ℝ
  sigma11_ow_old : ℝ
  bbox : Box
  moms : Moments
  ampW : ℝ
  shapeX : Option ℝ
  shapeY : Option ℝ
  flags : Flags

/-- Outcome of one execution of the loop body: `break_` leaves the loop with
the given state, `cont` proceeds to the next round (the `iter++` of the `for`
statement already applied). -/
inductive StepRes where
  | break_ : AmomState → StepRes
  | cont : AmomState → StepRes

/-- Tail of the loop body after a successful full-mode `calcmom`
(SdssShape.cc lines 507-606): amplitude and centroid update, the shift check,
the weighted-object moments with their positivity check, the convergence
test, and the inverse-covariance re-weighting with its three failure exits.
`w11 w12 w22` are the weights used this round, `iterAdj` the (possibly
redo-decremented) loop counter, `s11owOld` the (possibly reset)
`sigma11_ow_old`, `interp` the latched interpolation flag, `m` the sums. -/
def amomStep3 (xcen ycen shiftmax : ℝ) (s : AmomState) (bbox : Box)
    (detW : ℝ) (w11 w12 w22 : ℝ) (iterAdj : ℕ) (s11owOld : ℝ) (interp : Bool)
    (m : Moments) : StepRes :=
  let ampW := m.sum / (Real.pi * Real.sqrt detW)
  let sx := m.sumx / m.sum
  let sy := m.sumy / m.sum
  let fl1 : Flags :=
    if shiftmax < |sx - xcen| ∨ shiftmax < |sy - ycen| then
      { s.flags with shift := true }
    else s.flags
  let s11ow := m.sumxx / m.sum
  let s22ow := m.sumyy / m.sum
  let s12ow := m.sumxy / m.sum
  if s11ow ≤ 0 ∨ s22ow ≤ 0 then
    .break_
      { s with
        bbox := bbox, w11 := w11, w12 := w12, w22 := w22,
        iter := iterAdj, sigma11_ow_old := s11owOld, interpflag := interp,
        moms := m, ampW := ampW, shapeX := some sx, shapeY := some sy,
        flags := { fl1 with unweighted := true } }
  else
    let e1 := (s11ow - s22ow) / (s11ow + s22ow)
    let e2 := 2 * s12ow / (s11ow + s22ow)
    if 0 < iterAdj ∧ |e1 - s.e1_old| < TOL1 ∧ |e2 - s.e2_old| < TOL1 ∧
        |s11ow / s11owOld - 1| < TOL2 then
      .break_
        { s with
          bbox := bbox, w11 := w11, w12 := w12, w22 := w22,
          iter := iterAdj, sigma11_ow_old := s11owOld, interpflag := interp,
          moms := m, ampW := ampW, shapeX := some sx, shapeY := some sy,
          flags := fl1 }
    else
      let gw2 := getWeights s11ow s12ow s22ow
      if gw2.success = false then
        .break_
          { s with
            bbox := bbox, w11 := w11, w12 := w12, w22 := w22,
            iter := iterAdj, e1_old := e1, e2_old := e2,
            sigma11_ow_old := s11ow, interpflag := interp, moms := m,
            ampW := ampW, shapeX := some sx, shapeY := some sy,
            flags := { fl1 with unweighted := true } }
      else
        let gw3 := getWeights (gw2.w11 - w11) (gw2.w12 - w12) (gw2.w22 - w22)
        if gw3.success = false then
          .break_
            { s with
              bbox := bbox, w11 := w11, w12 := w12, w22 := w22,
              iter := iterAdj, e1_old := e1, e2_old := e2,
              sigma11_ow_old := s11ow, interpflag := interp, moms := m,
              ampW := ampW, shapeX := some sx, shapeY := some sy,
              flags := { fl1 with unweighted := true } }
        else if gw3.w11 ≤ 0 ∨ gw3.w22 ≤ 0 then
          .break_
            { s with
              bbox := bbox, w11 := w11, w12 := w12, w22 := w22,
              sigma11W := gw3.w11, sigma12W := gw3.w12, sigma22W := gw3.w22,
              iter := iterAdj, e1_old := e1, e2_old := e2,
              sigma11_ow_old := s11ow, interpflag := interp, moms := m,
              ampW := ampW, shapeX := some sx, shapeY := some sy,
              flags := { fl1 with unweighted := true } }
        else
          .cont
            { s with
              bbox := bbox, w11 := w11, w12 := w12, w22 := w22,
              sigma11W := gw3.w11, sigma12W := gw3.w12, sigma22W := gw3.w22,
              iter := iterAdj + 1, e1_old := e1, e2_old := e2,
              sigma11_ow_old := s11ow, interpflag := interp, moms := m,
              ampW := ampW, shapeX := some sx, shapeY := some sy,
              flags := fl1 }

/-- Loop body from the full-mode `calcmom` call on (lines 501-606): an early
`calcmom` failure leaves the previous sums in place, a `-1` after the loop
stores the sums, both break with UNWEIGHTED; otherwise `amomStep3`. -/
def amomStep2 (img : Image) (bkgd xcen ycen shiftmax : ℝ) (s : AmomState)
    (bbox : Box) (detW : ℝ) (w11 w12 w22 : ℝ) (iterAdj : ℕ) (s11owOld : ℝ)
    (interp : Bool) : StepRes :=
  match calcmom false img xcen ycen bbox bkgd interp w11 w12 w22 with
  | .earlyFail =>
    .break_
      { s with
        bbox := bbox, w11 := w11, w12 := w12, w22 := w22,
        iter := iterAdj, sigma11_ow_old := s11owOld, interpflag := interp,
        flags := { s.flags with unweighted := true } }
  | .computed m ok =>
    if ok = false then
      .break_
        { s with
          bbox := bbox, w11 := w11, w12 := w12, w22 := w22,
          iter := iterAdj, sigma11_ow_old := s11owOld, interpflag := interp,
          moms := m, flags := { s.flags with unweighted := true } }
    else
      amomStep3 xcen ycen shiftmax s bbox detW w11 w12 w22 iterAdj s11owOld
        interp m

/-- One execution of the adaptive-loop body (lines 460-607): bounding box,
weights, the interpolation latch with its redo of the round (`iter--`, which
does not consume an iteration and restores the previous weights while forcing
`sigma11_ow_old = 1e6`), then `amomStep2`. -/
def amomBody (img : Image) (bkgd xcen ycen shiftmax : ℝ) (s : AmomState) :
    StepRes :=
  if (getWeights s.sigma11W s.sigma12W s.sigma22W).success = false then
    .break_
      { s with
        bbox := set_amom_bbox img.width img.height xcen ycen s.sigma11W
          s.sigma12W s.sigma22W 1000,
        flags := { s.flags with unweighted := true } }
  else if getInterp s.sigma11W s.sigma22W
      (getWeights s.sigma11W s.sigma12W s.sigma22W).det = true ∧
      s.interpflag = false then
    if 0 < s.iter then
      amomStep2 img bkgd xcen ycen shiftmax s
        (set_amom_bbox img.width img.height xcen ycen s.sigma11W s.sigma12W
          s.sigma22W 1000)
        (getWeights s.sigma11W s.sigma12W s.sigma22W).det
        s.w11 s.w12 s.w22 (s.iter - 1) 1000000 true
    else
      amomStep2 img bkgd xcen ycen shiftmax s
        (set_amom_bbox img.width img.height xcen ycen s.sigma11W s.sigma12W
          s.sigma22W 1000)
        (getWeights s.sigma11W s.sigma12W s.sigma22W).det
        (getWeights s.sigma11W s.sigma12W s.sigma22W).w11
        (getWeights s.sigma11W s.sigma12W s.sigma22W).w12
        (getWeights s.sigma11W s.sigma12W s.sigma22W).w22
        s.iter s.sigma11_ow_old true
  else
    amomStep2 img bkgd xcen ycen shiftmax s
      (set_amom_bbox img.width img.height xcen ycen s.sigma11W s.sigma12W
        s.sigma22W 1000)
      (getWeights s.sigma11W s.sigma12W s.sigma22W).det
      (getWeights s.sigma11W s.sigma12W s.sigma22W).w11
      (getWeights s.sigma11W s.sigma12W s.sigma22W).w12
      (getWeights s.sigma11W s.sigma12W s.sigma22W).w22
      s.iter s.sigma11_ow_old s.interpflag

/-- Result of running the loop: `done` carries the state at loop exit
(either a break or the `iter < MAXIT` guard failing); `exhausted` marks
insufficient fuel and is proved unreachable with fuel `MAXIT + 1`. -/
inductive RunRes where
  | exhausted : RunRes
  | done : AmomState → RunRes

/-- The `for (; iter < MAXIT; iter++)` loop of `getAdaptiveMoments`,
fuel-indexed. -/
def amomRun (img : Image) (bkgd xcen ycen shiftmax : ℝ) :
    ℕ → AmomState → RunRes
  | 0, s => if MAXIT ≤ s.iter then .done s else .exhausted
  | f + 1, s =>
    if MAXIT ≤ s.iter then .done s
    else
      match amomBody img bkgd xcen ycen shiftmax s with
      | .break_ s2 => .done s2
      | .cont s2 => amomRun img bkgd xcen ycen shiftmax f s2

/-- Termination measure of the loop: every body execution strictly decreases
it (the interpolation redo trades the unlatched-interpolation unit for its
uncounted iteration). -/
def amomMeasure (s : AmomState) : ℕ :=
  (MAXIT - s.iter) + (if s.interpflag = true then 0 else 1)

/-- Initial loop state (lines 441-459): weighting covariance (1.5, 0, 1.5),
weights -1, convergence trackers 1e6, no flags. -/
def initState : AmomState :=
  { iter := 0, interpflag := false, w11 := -1, w12 := -1, w22 := -1,
    sigma11W := 3/2, sigma12W := 0, sigma22W := 3/2,
    e1_old := 1000000, e2_old := 1000000, sigma11_ow_old := 1000000,
    bbox := ⟨0, 0, 0, 0⟩, moms := Moments.zero, ampW := 0,
    shapeX := none, shapeY := none, flags := {} }

/-- Flag adjustments after the loop exits (lines 609-615): reaching the
iteration cap raises MAXITER and UNWEIGHTED; a zero `sumxx + sumyy` raises
UNWEIGHTED. -/
def adjFlags (s : AmomState) : Flags :=
  let f1 := if s.iter = MAXIT then
    { s.flags with maxIter := true, unweighted := true } else s.flags
  if s.moms.sumxx + s.moms.sumyy = 0 then { f1 with unweighted := true } else f1

/-- Output record of `getAdaptiveMoments`; fields the source never stores on
a given path are `none`.  The Fisher-covariance section (lines 645-660) only
fills error fields of the record and is not modelled. -/
structure ShapeOut where
  i0 : Option ℝ
  x : Option ℝ
  y : Option ℝ
  ixx : Option ℝ
  ixy : Option ℝ
  iyy : Option ℝ
  ixy4 : Option ℝ
  flags : Flags

/-- Hard-failure branch of the unweighted fallback (lines 622-631):
UNWEIGHTED is replaced by UNWEIGHTED_BAD, the single-pixel default moments
are stored only when the (possibly stale) sum is positive, and false is
returned. -/
def fallbackShape (s : AmomState) (f : Flags) (sumVal : ℝ) : Bool × ShapeOut :=
  (false,
    { i0 := none, x := s.shapeX, y := s.shapeY,
      ixx := if 0 < sumVal then some (1/12) else none,
      ixy := if 0 < sumVal then some 0 else none,
      iyy := if 0 < sumVal then some (1/12) else none,
      ixy4 := none,
      flags := { f with unweighted := false, unweightedBad := true } })

/-- Common final stores (lines 639-643 and `return true`): amplitude, the
final second moments and the fourth-moment diagnostic `sums4 / sum`. -/
def finishShape (s : AmomState) (f : Flags) (s11 s12 s22 : ℝ) (m : Moments) :
    Bool × ShapeOut :=
  (true,
    { i0 := some s.ampW, x := s.shapeX, y := s.shapeY,
      ixx := some s11, ixy := some s12, iyy := some s22,
      ixy4 := some (m.sums4 / m.sum), flags := f })

/-- Unweighted-fallback path (lines 619-637): rerun `calcmom` with zero
weights over the last box.  On an early failure the local sums survive (the
stale sum decides the default-moments store); `psums4` is NULL there, so the
stale `sums4` local always survives into the final `setIxy4`. -/
def fallbackPath (img : Image) (bkgd xcen ycen : ℝ) (s : AmomState)
    (f : Flags) : Bool × ShapeOut :=
  match calcmom false img xcen ycen s.bbox bkgd s.interpflag 0 0 0 with
  | .earlyFail => fallbackShape s f s.moms.sum
  | .computed m ok =>
    if ok = false ∨ m.sum ≤ 0 then fallbackShape s f m.sum
    else finishShape s f (m.sumxx / m.sum) (m.sumxy / m.sum) (m.sumyy / m.sum)
      ⟨m.sum, m.sumx, m.sumy, m.sumxx, m.sumxy, m.sumyy, s.moms.sums4⟩

/-- Post-loop processing of `getAdaptiveMoments` (lines 609-662). -/
def amomPost (img : Image) (bkgd xcen ycen : ℝ) (s : AmomState) :
    Bool × ShapeOut :=
  if (adjFlags s).unweighted = true then
    fallbackPath img bkgd xcen ycen s (adjFlags s)
  else finishShape s (adjFlags s) s.sigma11W s.sigma12W s.sigma22W s.moms

/-- Embedding of `getAdaptiveMoments` (SdssShape.cc lines 423-663).  A NaN
centroid cannot arise over exact reals, so the early NaN bail-out (lines
451-455) is not modelled; the Fisher-covariance section only fills error
fields and is likewise omitted.  Fuel `MAXIT + 1` bounds the number of body
executions and is proved sufficient: the single interpolation redo adds at
most one body execution beyond the `MAXIT` counted iterations. -/
def getAdaptiveMoments (img : Image) (bkgd xcen ycen shiftmax : ℝ) :
    Bool × ShapeOut :=
  match amomRun img bkgd xcen ycen shiftmax (MAXIT + 1) initState with
  | .exhausted =>
    (false,
      { i0 := none, x := none, y := none, ixx := none,
        ixy := none, iyy := none, ixy4 := none, flags := {} })
  | .done s => amomPost img bkgd xcen ycen s

/-- Loop-exit state of the concrete run on the 1×1 zero image with background
0, centroid (0,0): the first full-mode `calcmom` finds all-zero sums and
breaks with UNWEIGHTED at iteration 0. -/
def sZero : AmomState :=
  { iter := 0, interpflag := false, w11 := 2/3, w12 := 0, w22 := 2/3,
    sigma11W := 3/2, sigma12W := 0, sigma22W := 3/2,
    e1_old := 1000000, e2_old := 1000000, sigma11_ow_old := 1000000,
    bbox := ⟨0, 0, 0, 0⟩, moms := Moments.zero, ampW := 0,
    shapeX := none, shapeY := none,
    flags := { unweighted := true, unweightedBad := false, maxIter := false,
               shift := false } }

/- ------------------------------------------------------------------ -/
/- Small helpers for evaluating the embedding at concrete inputs.      -/
/- ------------------------------------------------------------------ -/

theorem truncInt_of_nonneg {x : ℝ} (h : 0 ≤ x) : truncInt x = ⌊x⌋ := by
  unfold truncInt
  exact if_pos h

theorem truncInt_of_neg {x : ℝ} (h : x < 0) : truncInt x = -⌊-x⌋ := by
  unfold truncInt
  exact if_neg (not_le.mpr h)

theorem ite_gt_eq_max (a b : ℝ) : (if a > b then a else b) = max a b := by
  rcases le_or_lt a b with h | h
  · rw [if_neg (not_lt.mpr h), max_eq_right h]
  · rw [if_pos h, max_eq_left h.le]

theorem ite_gt_eq_min (a b : ℝ) : (if a > b then b else a) = min a b := by
  rcases le_or_lt a b with h | h
  · rw [if_neg (not_lt.mpr h), min_eq_left h]
  · rw [if_pos h, min_eq_right h.le]

theorem ite_lt_zero_eq_max (n : ℤ) : (if n < 0 then 0 else n) = max n 0 := by
  rcases lt_or_le n 0 with h | h
  · rw [if_pos h, max_eq_right h.le]
  · rw [if_neg (not_lt.mpr h), max_eq_left h]

/- ------------------------------------------------------------------ -/
/- Claims C6, C4, C7, C9.                                              -/
/- ------------------------------------------------------------------ -/

/-- C6: for every input triple whose determinant `D = σ11·σ22 − σ12²` is at
least machine (float) epsilon, `getWeights` returns success, the determinant
`D`, and the weights `(σ22/D, −σ12/D, σ11/D)`. -/
theorem claim_C6 (sigma11 sigma12 sigma22 : ℝ)
    (h : floatEps ≤ sigma11 * sigma22 - sigma12 * sigma12) :
    getWeights sigma11 sigma12 sigma22 =
      ⟨true, sigma11 * sigma22 - sigma12 * sigma12,
        sigma22 / (sigma11 * sigma22 - sigma12 * sigma12),
        -sigma12 / (sigma11 * sigma22 - sigma12 * sigma12),
        sigma11 / (sigma11 * sigma22 - sigma12 * sigma12)⟩ := by
  simp only [getWeights]
  rw [if_neg (not_lt.mpr h)]

/-- Witness for C6 at the concrete input (1, 0, 1). -/
theorem claim_C6_witness :
    floatEps ≤ (1 : ℝ) * 1 - 0 * 0 ∧
      getWeights 1 0 1 =
        ⟨true, (1 : ℝ) * 1 - 0 * 0, 1 / ((1 : ℝ) * 1 - 0 * 0),
          -0 / ((1 : ℝ) * 1 - 0 * 0), 1 / ((1 : ℝ) * 1 - 0 * 0)⟩ :=
  ⟨by norm_num [floatEps], claim_C6 1 0 1 (by norm_num [floatEps])⟩

/-- C4 counterexample: at the indefinite input (σ11, σ12, σ22) = (0, 10, 0)
the determinant −100 is below float epsilon, yet the degenerate branch
returns a negative `w11`, and the regularized squared minor-axis length
`eigMin + 1/12` is below 1/12 — refuting the claim's universal guarantee for
every non-NaN triple with small determinant. -/
theorem claim_C4_counterexample :
    (getWeights 0 10 0).w11 < 0 ∧ eigMin 0 10 0 + 1 / 12 < 1 / 12 := by
  constructor
  · have h0 : getWeights 0 10 0 =
        ⟨true, (0 + 1/12 : ℝ) * (0 + 1/12) - 10 * 10,
          (0 + 1/12) / ((0 + 1/12) * (0 + 1/12) - 10 * 10),
          -10 / ((0 + 1/12) * (0 + 1/12) - 10 * 10),
          (0 + 1/12) / ((0 + 1/12) * (0 + 1/12) - 10 * 10)⟩ := by
      simp only [getWeights]
      rw [if_pos (by norm_num [floatEps])]
    rw [h0]
    norm_num
  · have h4 : Real.sqrt (((0 : ℝ) - 0) ^ 2 + 4 * 10 ^ 2) = 20 := by
      rw [show (((0 : ℝ) - 0) ^ 2 + 4 * 10 ^ 2) = 20 ^ 2 by norm_num,
        Real.sqrt_sq (by norm_num)]
    simp only [eigMin]
    rw [h4]
    norm_num

/-- C4 (amended): for every positive-semidefinite triple (σ11 ≥ 0, σ22 ≥ 0,
σ12² ≤ σ11·σ22) whose determinant is below machine epsilon — in particular
for (0, 0, 0) — `getWeights` returns success, the regularized squared axis
lengths are at least 1/12 (both regularized axes ≥ √(1/12)), and the
returned `w11` and `w22` are strictly positive. -/
theorem claim_C4 (s11 s12 s22 : ℝ) (h11 : 0 ≤ s11) (h22 : 0 ≤ s22)
    (hpsd : s12 * s12 ≤ s11 * s22) (hdet : s11 * s22 - s12 * s12 < floatEps) :
    (getWeights s11 s12 s22).success = true ∧
      1 / 12 ≤ eigMin s11 s12 s22 + 1 / 12 ∧
      0 < (getWeights s11 s12 s22).w11 ∧ 0 < (getWeights s11 s12 s22).w22 := by
  have hdet2 : 0 < (s11 + 1/12) * (s22 + 1/12) - s12 * s12 := by nlinarith
  have hgw : getWeights s11 s12 s22 =
      ⟨true, (s11 + 1/12) * (s22 + 1/12) - s12 * s12,
        (s22 + 1/12) / ((s11 + 1/12) * (s22 + 1/12) - s12 * s12),
        -s12 / ((s11 + 1/12) * (s22 + 1/12) - s12 * s12),
        (s11 + 1/12) / ((s11 + 1/12) * (s22 + 1/12) - s12 * s12)⟩ := by
    simp only [getWeights]
    rw [if_pos hdet]
  refine ⟨by rw [hgw], ?_, ?_, ?_⟩
  · have hsq : Real.sqrt ((s11 - s22) ^ 2 + 4 * s12 ^ 2) ≤ s11 + s22 := by
      have h2 : (s11 - s22) ^ 2 + 4 * s12 ^ 2 ≤ (s11 + s22) ^ 2 := by nlinarith
      calc Real.sqrt ((s11 - s22) ^ 2 + 4 * s12 ^ 2)
          ≤ Real.sqrt ((s11 + s22) ^ 2) := Real.sqrt_le_sqrt h2
        _ = s11 + s22 := Real.sqrt_sq (by linarith)
    simp only [eigMin]
    linarith
  · rw [hgw]
    exact div_pos (by linarith) hdet2
  · rw [hgw]
    exact div_pos (by linarith) hdet2

/-- Witness for C4 (amended) at the degenerate input (0, 0, 0). -/
theorem claim_C4_witness :
    (0 : ℝ) * 0 - 0 * 0 < floatEps ∧ 0 < (getWeights 0 0 0).w11 :=
  ⟨by norm_num [floatEps],
    (claim_C4 0 0 0 le_rfl le_rfl (by norm_num) (by norm_num [floatEps])).2.2.1⟩

/-- Evaluation form of `set_amom_bbox`: the sequential clamps of the source
rewritten with `min`/`max`. -/
theorem set_amom_bbox_eq (width height : ℤ) (xcen ycen s11 s12 s22 maxRad : ℝ) :
    set_amom_bbox width height xcen ycen s11 s12 s22 maxRad =
      { x0 := max (truncInt (xcen - min (4 * Real.sqrt (max s11 s22)) maxRad - 1/2)) 0,
        y0 := max (truncInt (ycen - min (4 * Real.sqrt (max s11 s22)) maxRad - 1/2)) 0,
        x1 := if width ≤ truncInt (xcen + min (4 * Real.sqrt (max s11 s22)) maxRad + 1/2)
              then width - 1
              else truncInt (xcen + min (4 * Real.sqrt (max s11 s22)) maxRad + 1/2),
        y1 := if height ≤ truncInt (ycen + min (4 * Real.sqrt (max s11 s22)) maxRad + 1/2)
              then height - 1
              else truncInt (ycen + min (4 * Real.sqrt (max s11 s22)) maxRad + 1/2) } := by
  simp only [set_amom_bbox, ite_gt_eq_max, ite_gt_eq_min, ite_lt_zero_eq_max, max_comm]

/-- C7 counterexample: with a 4×4 image, centroid (100, 100) and σ11 = σ22 = 1
(radius 4), the lower x-corner is 95, which is not clipped into [0, 3]; and
with centroid (−10, −10) on a 100×100 image the upper x-corner is −5, which is
neither `⌊−10 + 4 + 0.5⌋ = −6` (truncation toward zero, not floor) nor inside
[0, 99] — refuting both the "floor" and the "both corners clipped into
[0, dim−1]" parts of the claim. -/
theorem claim_C7_counterexample :
    (set_amom_bbox 4 4 100 100 1 0 1 1000).x0 = 95 ∧
      ¬ (set_amom_bbox 4 4 100 100 1 0 1 1000).x0 ≤ 4 - 1 ∧
      (set_amom_bbox 100 100 (-10) (-10) 1 0 1 1000).x1 = -5 ∧
      (set_amom_bbox 100 100 (-10) (-10) 1 0 1 1000).x1 ≠ ⌊(-10 : ℝ) + 4 + 1/2⌋ ∧
      (set_amom_bbox 100 100 (-10) (-10) 1 0 1 1000).x1 < 0 := by
  have hmin : min ((4 : ℝ) * Real.sqrt (max 1 1)) 1000 = 4 := by
    rw [max_self, Real.sqrt_one]
    norm_num
  have hb1 : (set_amom_bbox 4 4 100 100 1 0 1 1000).x0 = 95 := by
    rw [set_amom_bbox_eq]
    show max (truncInt ((100 : ℝ) - min (4 * Real.sqrt (max 1 1)) 1000 - 1/2)) 0 = 95
    rw [hmin, truncInt_of_nonneg (by norm_num)]
    rw [show ⌊(100 : ℝ) - 4 - 1/2⌋ = 95 from by rw [Int.floor_eq_iff] <;> norm_num]
    norm_num
  have hb2 : (set_amom_bbox 100 100 (-10) (-10) 1 0 1 1000).x1 = -5 := by
    rw [set_amom_bbox_eq]
    show (if (100 : ℤ) ≤ truncInt ((-10 : ℝ) + min (4 * Real.sqrt (max 1 1)) 1000 + 1/2)
          then (100 : ℤ) - 1
          else truncInt ((-10 : ℝ) + min (4 * Real.sqrt (max 1 1)) 1000 + 1/2)) = -5
    rw [hmin, truncInt_of_neg (by norm_num)]
    rw [show ⌊-((-10 : ℝ) + 4 + 1/2)⌋ = 5 from by rw [Int.floor_eq_iff] <;> norm_num]
    norm_num
  refine ⟨hb1, by rw [hb1]; norm_num, hb2, ?_, by rw [hb2]; norm_num⟩
  rw [hb2, show ⌊(-10 : ℝ) + 4 + 1/2⌋ = -6 from by rw [Int.floor_eq_iff] <;> norm_num]
  norm_num

/-- C7 (amended): the box has radius `4·√(max σ11 σ22)` clamped to `maxRad`;
its lower corners are the truncation toward zero of `centroid − radius − 0.5`
clamped below to 0 (with no upper clip), its upper corners are the truncation
toward zero of `centroid + radius + 0.5` replaced by `dim − 1` whenever they
reach `dim` (with no lower clip); truncation toward zero agrees with floor on
nonnegative arguments. -/
theorem claim_C7 (width height : ℤ) (xcen ycen s11 s12 s22 maxRad : ℝ) (z : ℝ) :
    (set_amom_bbox width height xcen ycen s11 s12 s22 maxRad =
      { x0 := max (truncInt (xcen - min (4 * Real.sqrt (max s11 s22)) maxRad - 1/2)) 0,
        y0 := max (truncInt (ycen - min (4 * Real.sqrt (max s11 s22)) maxRad - 1/2)) 0,
        x1 := if width ≤ truncInt (xcen + min (4 * Real.sqrt (max s11 s22)) maxRad + 1/2)
              then width - 1
              else truncInt (xcen + min (4 * Real.sqrt (max s11 s22)) maxRad + 1/2),
        y1 := if height ≤ truncInt (ycen + min (4 * Real.sqrt (max s11 s22)) maxRad + 1/2)
              then height - 1
              else truncInt (ycen + min (4 * Real.sqrt (max s11 s22)) maxRad + 1/2) }) ∧
      (0 ≤ z → truncInt z = ⌊z⌋) := by
  constructor
  · exact set_amom_bbox_eq width height xcen ycen s11 s12 s22 maxRad
  · intro hz
    exact truncInt_of_nonneg hz

/-- Witness for C7 (amended) at a concrete input with z = 0. -/
theorem claim_C7_witness :
    (0 : ℝ) ≤ 0 ∧ truncInt 0 = ⌊(0 : ℝ)⌋ :=
  ⟨le_rfl, (claim_C7 1 1 0 0 1 0 1 1000 0).2 le_rfl⟩

/-- C9: whenever the second-moment determinant exceeds (double) machine
epsilon and the background variance is positive, `calc_fisher` returns a
matrix, and that matrix is exactly symmetric: `M i j = M j i` for all
indices, each off-diagonal element being assigned by mirroring. -/
theorem claim_C9 (A s11 s12 s22 bvar : ℝ)
    (hD : doubleEps < s11 * s22 - s12 * s12) (hv : 0 < bvar) :
    ∃ M, calc_fisher A s11 s12 s22 bvar = some M ∧ ∀ i j, M i j = M j i := by
  simp only [calc_fisher]
  rw [if_neg (not_le.mpr hD), if_neg (not_le.mpr hv)]
  refine ⟨_, rfl, ?_⟩
  intro i j
  fin_cases i <;> fin_cases j <;> rfl

/-- Witness for C9 at the concrete input (A, σ11, σ12, σ22, var) = (1,1,0,1,1). -/
theorem claim_C9_witness :
    doubleEps < (1 : ℝ) * 1 - 0 * 0 ∧ (0 : ℝ) < 1 ∧
      ∃ M, calc_fisher 1 1 0 1 1 = some M ∧ ∀ i j, M i j = M j i :=
  ⟨by norm_num [doubleEps], by norm_num,
    claim_C9 1 1 0 1 1 (by norm_num [doubleEps]) (by norm_num)⟩

/- ------------------------------------------------------------------ -/
/- Helpers about getWeights, calcmom and the concrete zero image.      -/
/- ------------------------------------------------------------------ -/

theorem getWeights_success (a b c : ℝ) : (getWeights a b c).success = true := by
  simp only [getWeights]
  split_ifs
  · rfl
  · rfl

theorem calcmom_fluxOnly_fail (img : Image) (xcen ycen : ℝ) (bbox : Box)
    (bkgd : ℝ) (interpflag : Bool) (w11 w12 w22 : ℝ)
    (h : (calcmom true img xcen ycen bbox bkgd interpflag w11 w12 w22).isFail = true) :
    calcmom true img xcen ycen bbox bkgd interpflag w11 w12 w22 = .earlyFail := by
  unfold calcmom at h ⊢
  split_ifs at h ⊢ with h1 h2 h3
  · rfl
  · rfl
  · exact absurd h (by simp [CalcRet.isFail])
  · exact absurd (Or.inl rfl) h3

theorem pixContrib_plain (fluxOnly : Bool) (xcen ycen bkgd w11 w12 w22 v : ℝ)
    (j i : ℤ) :
    pixContrib fluxOnly false xcen ycen bkgd w11 w12 w22 v j i =
      plainContrib fluxOnly xcen ycen bkgd w11 w12 w22 v j i := rfl

theorem boxSum_single (g : ℤ → ℤ → ℝ) : boxSum ⟨0, 0, 0, 0⟩ g = g 0 0 := by
  simp [boxSum]

theorem boxMoments_single (fluxOnly interpflag : Bool) (img : Image)
    (xcen ycen bkgd w11 w12 w22 : ℝ) :
    boxMoments fluxOnly interpflag img xcen ycen bkgd w11 w12 w22 ⟨0, 0, 0, 0⟩ =
      pixContrib fluxOnly interpflag xcen ycen bkgd w11 w12 w22 (img.pix 0 0) 0 0 := by
  unfold boxMoments
  simp only [boxSum_single]

theorem plainContrib_center (fluxOnly : Bool) (bkgd w11 w12 w22 v : ℝ) :
    plainContrib fluxOnly 0 0 bkgd w11 w12 w22 v 0 0 =
      ⟨v - bkgd, 0, 0, 0, 0, 0, 0⟩ := by
  have hx : ((0 : ℤ) : ℝ) - 0 = 0 := by norm_num
  simp only [plainContrib, hx]
  norm_num [Real.exp_zero]

theorem calcmom_zeroImg (fluxOnly : Bool) (bkgd w11 w12 w22 : ℝ)
    (h1 : |w11| ≤ 1000000) (h2 : |w12| ≤ 1000000) (h3 : |w22| ≤ 1000000) :
    calcmom fluxOnly zeroImg 0 0 ⟨0, 0, 0, 0⟩ bkgd false w11 w12 w22 =
      .computed ⟨0 - bkgd, 0, 0, 0, 0, 0, 0⟩ fluxOnly := by
  have hm : boxMoments fluxOnly false zeroImg 0 0 bkgd w11 w12 w22 ⟨0, 0, 0, 0⟩ =
      ⟨0 - bkgd, 0, 0, 0, 0, 0, 0⟩ := by
    rw [boxMoments_single, pixContrib_plain]
    exact plainContrib_center fluxOnly bkgd w11 w12 w22 (zeroImg.pix 0 0)
  unfold calcmom
  rw [if_neg (by push_neg; exact ⟨h1, h2, h3⟩),
    if_neg (by push_neg; refine ⟨by norm_num, ?_, by norm_num, ?_⟩ <;> norm_num [zeroImg]),
    hm]
  cases fluxOnly
  · rw [if_neg]
    rintro (h | ⟨_, h, _⟩)
    · exact Bool.noConfusion h
    · exact absurd h (by norm_num)
  · rw [if_pos (Or.inl rfl)]

theorem getWeights_init : getWeights (3/2) 0 (3/2) = ⟨true, 9/4, 2/3, 0, 2/3⟩ := by
  simp only [getWeights]
  rw [if_neg (by norm_num [floatEps])]
  norm_num [GW.mk.injEq]

theorem getInterp_init : getInterp (3/2) (3/2) (9/4) = false := by
  unfold getInterp
  rw [if_neg (by push_neg; norm_num)]

theorem sqrt32_ge_one : 1 ≤ Real.sqrt (3/2) := by
  nlinarith [Real.sq_sqrt (show (0 : ℝ) ≤ 3/2 by norm_num), Real.sqrt_nonneg (3/2 : ℝ)]

theorem sqrt32_le_two : Real.sqrt (3/2) ≤ 2 := by
  nlinarith [Real.sq_sqrt (show (0 : ℝ) ≤ 3/2 by norm_num), Real.sqrt_nonneg (3/2 : ℝ)]

theorem box_init_eval : set_amom_bbox 1 1 0 0 (3/2) 0 (3/2) 1000 = ⟨0, 0, 0, 0⟩ := by
  have hmax : max (3/2 : ℝ) (3/2) = 3/2 := max_self _
  have hmin : min (4 * Real.sqrt (3/2)) 1000 = 4 * Real.sqrt (3/2) :=
    min_eq_left (by nlinarith [sqrt32_le_two])
  have hx0 : max (truncInt ((0 : ℝ) - min (4 * Real.sqrt (max (3/2) (3/2))) 1000 - 1/2)) 0
      = 0 := by
    rw [hmax, hmin, truncInt_of_neg (by nlinarith [sqrt32_ge_one])]
    refine max_eq_right (neg_nonpos.mpr (Int.le_floor.mpr ?_))
    push_cast
    nlinarith [sqrt32_ge_one]
  have hx1 : (if (1 : ℤ) ≤ truncInt ((0 : ℝ) + min (4 * Real.sqrt (max (3/2) (3/2))) 1000 + 1/2)
      then (1 : ℤ) - 1
      else truncInt ((0 : ℝ) + min (4 * Real.sqrt (max (3/2) (3/2))) 1000 + 1/2)) = 0 := by
    rw [hmax, hmin, truncInt_of_nonneg (by nlinarith [sqrt32_ge_one])]
    rw [if_pos (Int.le_floor.mpr (by push_cast; nlinarith [sqrt32_ge_one]))]
    norm_num
  rw [set_amom_bbox_eq]
  simp only [Box.mk.injEq]
  exact ⟨hx0, hx0, hx1, hx1⟩

/- ------------------------------------------------------------------ -/
/- Claims C8, C10, C2, C1.                                             -/
/- ------------------------------------------------------------------ -/

/-- C8: `calcmom` returns the failure indicator −1 exactly when some weight
exceeds 1e6 in absolute value, or the box extends outside the image bounds,
or — in full (non-fluxOnly) mode — the accumulated sum, sumXX or sumYY is
non-positive; otherwise it succeeds with the accumulated moment sums. -/
theorem claim_C8 (fluxOnly : Bool) (img : Image) (xcen ycen : ℝ) (bbox : Box)
    (bkgd : ℝ) (interpflag : Bool) (w11 w12 w22 : ℝ) :
    ((calcmom fluxOnly img xcen ycen bbox bkgd interpflag w11 w12 w22).isFail = true ↔
      (1000000 < |w11| ∨ 1000000 < |w12| ∨ 1000000 < |w22|) ∨
      (bbox.x0 < 0 ∨ img.width ≤ bbox.x1 ∨ bbox.y0 < 0 ∨ img.height ≤ bbox.y1) ∨
      (fluxOnly = false ∧
        ((boxMoments fluxOnly interpflag img xcen ycen bkgd w11 w12 w22 bbox).sum ≤ 0 ∨
          (boxMoments fluxOnly interpflag img xcen ycen bkgd w11 w12 w22 bbox).sumxx ≤ 0 ∨
          (boxMoments fluxOnly interpflag img xcen ycen bkgd w11 w12 w22 bbox).sumyy ≤ 0))) ∧
    ((calcmom fluxOnly img xcen ycen bbox bkgd interpflag w11 w12 w22).isFail = false →
      calcmom fluxOnly img xcen ycen bbox bkgd interpflag w11 w12 w22 =
        .computed (boxMoments fluxOnly interpflag img xcen ycen bkgd w11 w12 w22 bbox) true) := by
  unfold calcmom
  split_ifs with hw hb hok
  · refine ⟨iff_of_true rfl (Or.inl hw), ?_⟩
    intro h
    exact absurd h (by simp [CalcRet.isFail])
  · refine ⟨iff_of_true rfl (Or.inr (Or.inl hb)), ?_⟩
    intro h
    exact absurd h (by simp [CalcRet.isFail])
  · constructor
    · simp only [CalcRet.isFail, Bool.not_true]
      constructor
      · intro h
        exact Bool.noConfusion h
      · rintro (h | h | ⟨hf, hnp⟩)
        · exact absurd h hw
        · exact absurd h hb
        · rcases hok with hft | ⟨hs, hxx, hyy⟩
          · rw [hft] at hf
            exact Bool.noConfusion hf
          · rcases hnp with h | h | h
            · exact absurd hs (not_lt.mpr h)
            · exact absurd hxx (not_lt.mpr h)
            · exact absurd hyy (not_lt.mpr h)
    · intro _
      rfl
  · constructor
    · simp only [CalcRet.isFail, Bool.not_false]
      refine iff_of_true trivial (Or.inr (Or.inr ⟨?_, ?_⟩))
      · cases hfo : fluxOnly
        · rfl
        · exact absurd (Or.inl hfo) hok
      · by_contra hc
        push_neg at hc
        exact hok (Or.inr ⟨hc.1, hc.2.1, hc.2.2⟩)
    · intro h
      exact absurd h (by simp [CalcRet.isFail])

/-- Witness for C8 at a concrete successful call (fluxOnly mode, zero weights,
in-bounds singleton box on the 1×1 zero image). -/
theorem claim_C8_witness :
    calcmom true zeroImg 0 0 ⟨0, 0, 0, 0⟩ 0 false 0 0 0 =
      .computed (boxMoments true false zeroImg 0 0 0 0 0 0 ⟨0, 0, 0, 0⟩) true := by
  refine (claim_C8 true zeroImg 0 0 ⟨0, 0, 0, 0⟩ 0 false 0 0 0).2 ?_
  rw [calcmom_zeroImg true 0 0 0 0 (by norm_num) (by norm_num) (by norm_num)]
  rfl

/-- C10: in fluxOnly mode, for every in-bounds box and weights at most 1e6 in
absolute value, `calcmom` succeeds regardless of the sign of the accumulated
sum — and consequently `getFixedMomentsFlux` can return a negative flux with
no failure indication, as it does on a 1×1 zero image with background 1 and
target covariance (1.5, 0, 1.5). -/
theorem claim_C10 :
    (∀ (img : Image) (xcen ycen : ℝ) (bbox : Box) (bkgd : ℝ) (interpflag : Bool)
        (w11 w12 w22 : ℝ),
      |w11| ≤ 1000000 → |w12| ≤ 1000000 → |w22| ≤ 1000000 →
      0 ≤ bbox.x0 → bbox.x1 < img.width → 0 ≤ bbox.y0 → bbox.y1 < img.height →
      (calcmom true img xcen ycen bbox bkgd interpflag w11 w12 w22).isFail = false) ∧
    getFixedMomentsFlux zeroImg 1 0 0 (some (3/2)) (some 0) (some (3/2)) =
      (some (-1), none) := by
  constructor
  · intro img xcen ycen bbox bkgd interpflag w11 w12 w22 h1 h2 h3 hx0 hx1 hy0 hy1
    unfold calcmom
    rw [if_neg (by push_neg; exact ⟨h1, h2, h3⟩),
      if_neg (by push_neg; exact ⟨hx0, hx1, hy0, hy1⟩),
      if_pos (Or.inl rfl)]
    rfl
  · simp only [getFixedMomentsFlux]
    rw [if_neg (by rw [getWeights_success]; exact Bool.noConfusion)]
    rw [show zeroImg.width = 1 from rfl, show zeroImg.height = 1 from rfl]
    rw [box_init_eval, getWeights_init]
    rw [show (GW.mk true (9/4) (2/3) 0 (2/3)).det = (9/4 : ℝ) from rfl,
      show (GW.mk true (9/4) (2/3) 0 (2/3)).w11 = (2/3 : ℝ) from rfl,
      show (GW.mk true (9/4) (2/3) 0 (2/3)).w12 = (0 : ℝ) from rfl,
      show (GW.mk true (9/4) (2/3) 0 (2/3)).w22 = (2/3 : ℝ) from rfl]
    rw [getInterp_init]
    rw [calcmom_zeroImg true 1 (2/3) 0 (2/3)
      (by rw [abs_of_nonneg (by norm_num)]; norm_num) (by simp)
      (by rw [abs_of_nonneg (by norm_num)]; norm_num)]
    norm_num

/-- Witness for C10: the universal fluxOnly-success statement applied at the
concrete in-bounds input on the 1×1 zero image with zero weights. -/
theorem claim_C10_witness :
    (calcmom true zeroImg 0 0 ⟨0, 0, 0, 0⟩ 1 false 0 0 0).isFail = false :=
  claim_C10.1 zeroImg 0 0 ⟨0, 0, 0, 0⟩ 1 false 0 0 0 (by norm_num) (by norm_num)
    (by norm_num) (by norm_num) (by norm_num [zeroImg]) (by norm_num)
    (by norm_num [zeroImg])

/-- C2 counterexample: with the fixed target covariance (1, 0, 2⁻²²) the
determinant 2⁻²² passes the epsilon test, the weights are (1, 0, 2²²) with
w22 = 4194304 > 1e6, so the accumulator call fails — yet `getFixedMomentsFlux`
returns (0, NaN), not (NaN, NaN): the return code of the accumulator is
ignored and the flux local keeps its initial value 0. -/
theorem claim_C2_counterexample :
    (calcmom true zeroImg 0 0
        (set_amom_bbox zeroImg.width zeroImg.height 0 0 1 0 (1/4194304) 1000) 0
        (getInterp 1 (1/4194304) (getWeights 1 0 (1/4194304)).det)
        (getWeights 1 0 (1/4194304)).w11 (getWeights 1 0 (1/4194304)).w12
        (getWeights 1 0 (1/4194304)).w22).isFail = true ∧
    getFixedMomentsFlux zeroImg 0 0 0 (some 1) (some 0) (some (1/4194304)) =
      (some 0, none) ∧
    (some (0 : ℝ), (none : Option ℝ)) ≠ ((none : Option ℝ), (none : Option ℝ)) := by
  have hgw : getWeights 1 0 (1/4194304) = ⟨true, 1/4194304, 1, 0, 4194304⟩ := by
    simp only [getWeights]
    rw [if_neg (by norm_num [floatEps])]
    norm_num [GW.mk.injEq]
  have hcm : (calcmom true zeroImg 0 0
      (set_amom_bbox zeroImg.width zeroImg.height 0 0 1 0 (1/4194304) 1000) 0
      (getInterp 1 (1/4194304) (getWeights 1 0 (1/4194304)).det)
      (getWeights 1 0 (1/4194304)).w11 (getWeights 1 0 (1/4194304)).w12
      (getWeights 1 0 (1/4194304)).w22) = .earlyFail := by
    rw [hgw]
    unfold calcmom
    rw [if_pos]
    right
    right
    rw [show (GW.mk true (1/4194304) 1 0 4194304).w22 = (4194304 : ℝ) from rfl]
    rw [abs_of_nonneg (by norm_num)]
    norm_num
  refine ⟨by rw [hcm]; rfl, ?_, by simp⟩
  simp only [getFixedMomentsFlux]
  rw [if_neg (by rw [getWeights_success]; exact Bool.noConfusion)]
  rw [hcm]

/-- C2 (amended): a failed WeightSolver call (a NaN shape moment) yields
(NaN, NaN); a failed accumulator call leaves the flux at its initial value 0
and yields (0, NaN) because the accumulator's return code is ignored; and the
flux-error component is NaN in every case. -/
theorem claim_C2 (img : Image) (bkgd xcen ycen : ℝ) (oxx oxy oyy : Option ℝ) :
    ((oxx = none ∨ oxy = none ∨ oyy = none) →
      getFixedMomentsFlux img bkgd xcen ycen oxx oxy oyy = (none, none)) ∧
    (∀ s11 s12 s22 : ℝ, oxx = some s11 → oxy = some s12 → oyy = some s22 →
      (calcmom true img xcen ycen
          (set_amom_bbox img.width img.height xcen ycen s11 s12 s22 1000) bkgd
          (getInterp s11 s22 (getWeights s11 s12 s22).det)
          (getWeights s11 s12 s22).w11 (getWeights s11 s12 s22).w12
          (getWeights s11 s12 s22).w22).isFail = true →
      getFixedMomentsFlux img bkgd xcen ycen oxx oxy oyy = (some 0, none)) ∧
    (getFixedMomentsFlux img bkgd xcen ycen oxx oxy oyy).2 = none := by
  refine ⟨?_, ?_, ?_⟩
  · intro h
    cases oxx with
    | none => rfl
    | some s11 =>
      cases oxy with
      | none => rfl
      | some s12 =>
        cases oyy with
        | none => rfl
        | some s22 =>
          rcases h with h | h | h
          · exact absurd h (by simp)
          · exact absurd h (by simp)
          · exact absurd h (by simp)
  · intro s11 s12 s22 h1 h2 h3 hfail
    subst h1
    subst h2
    subst h3
    have hef := calcmom_fluxOnly_fail img xcen ycen
      (set_amom_bbox img.width img.height xcen ycen s11 s12 s22 1000) bkgd
      (getInterp s11 s22 (getWeights s11 s12 s22).det)
      (getWeights s11 s12 s22).w11 (getWeights s11 s12 s22).w12
      (getWeights s11 s12 s22).w22 hfail
    simp only [getFixedMomentsFlux]
    rw [if_neg (by rw [getWeights_success]; exact Bool.noConfusion)]
    rw [hef]
  · cases oxx with
    | none => rfl
    | some s11 =>
      cases oxy with
      | none => rfl
      | some s12 =>
        cases oyy with
        | none => rfl
        | some s22 =>
          simp only [getFixedMomentsFlux]
          rw [if_neg (by rw [getWeights_success]; exact Bool.noConfusion)]
          cases hc : calcmom true img xcen ycen
              (set_amom_bbox img.width img.height xcen ycen s11 s12 s22 1000) bkgd
              (getInterp s11 s22 (getWeights s11 s12 s22).det)
              (getWeights s11 s12 s22).w11 (getWeights s11 s12 s22).w12
              (getWeights s11 s12 s22).w22 with
          | earlyFail => rfl
          | computed m ok => rfl

/-- Witness for C2 (amended): the failing-accumulator branch applied at the
concrete input of the counterexample, and the NaN-input branch at `none`. -/
theorem claim_C2_witness :
    getFixedMomentsFlux zeroImg 0 0 0 (some 1) (some 0) (some (1/4194304)) =
      (some 0, none) ∧
    getFixedMomentsFlux zeroImg 0 0 0 none none none = (none, none) := by
  constructor
  · apply (claim_C2 zeroImg 0 0 0 (some 1) (some 0) (some (1/4194304))).2.1
      1 0 (1/4194304) rfl rfl rfl
    have hgw : getWeights 1 0 (1/4194304) = ⟨true, 1/4194304, 1, 0, 4194304⟩ := by
      simp only [getWeights]
      rw [if_neg (by norm_num [floatEps])]
      norm_num [GW.mk.injEq]
    rw [hgw]
    unfold calcmom
    rw [if_pos]
    · rfl
    · right
      right
      rw [show (GW.mk true (1/4194304) 1 0 4194304).w22 = (4194304 : ℝ) from rfl]
      rw [abs_of_nonneg (by norm_num)]
      norm_num
  · exact (claim_C2 zeroImg 0 0 0 none none none).1 (Or.inl rfl)

/-- C1 counterexample: with weights (0, 0, 16), centre (0, −0.5) and pixel
(0, 0), the low-low corner exponent is 1/4 ≤ 9 but the high-high corner
exponent is 49/4 > 9; the code skips the whole cell (contribution zero),
whereas the 4×4 sub-grid sum the claim demands is strictly positive — the
cell is skipped as soon as ONE corner exponent exceeds 9, not only when all
four do. -/
theorem claim_C1_counterexample :
    cornerExpon 0 0 16 (((0 : ℤ) : ℝ) - 0 - 3/8) (((0 : ℤ) : ℝ) - (-(1/2)) - 3/8) ≤ 9 ∧
      interpContrib false 0 (-(1/2)) 0 0 0 16 1 0 0 = Moments.zero ∧
      0 < (subGridMoments false 0 (-(1/2)) 0 0 16 1 (((0 : ℤ) : ℝ) - 0 - 3/8)
            (((0 : ℤ) : ℝ) - (-(1/2)) - 3/8)).sum := by
  refine ⟨by norm_num [cornerExpon], ?_, ?_⟩
  · simp only [interpContrib]
    split_ifs with h
    · exfalso
      rw [max_le_iff, max_le_iff, max_le_iff] at h
      norm_num [cornerExpon] at h
    · rfl
  · simp only [subGridMoments]
    unfold subGrid16
    apply Finset.sum_pos
    · intro a _
      apply Finset.sum_pos
      · intro b _
        simp only [subContrib]
        rw [if_neg (by simp)]
        exact mul_pos one_pos (Real.exp_pos _)
      · exact ⟨0, Finset.mem_range.mpr (by norm_num)⟩
    · exact ⟨0, Finset.mem_range.mpr (by norm_num)⟩

/-- C1 (amended): on the interpolated path, a pixel's 0.75-wide cell is
accumulated as the 4×4 sub-grid iff ALL four corner exponents are at most 9
(the code takes the maximum of the four corner exponents), and the cell is
skipped — contributing nothing — as soon as at least one corner exponent
exceeds 9. -/
theorem claim_C1 (fluxOnly : Bool) (xcen ycen bkgd w11 w12 w22 v : ℝ) (j i : ℤ) :
    ((cornerExpon w11 w12 w22 ((j : ℝ) - xcen - 3/8) ((i : ℝ) - ycen - 3/8) ≤ 9 ∧
      cornerExpon w11 w12 w22 ((j : ℝ) - xcen + 3/8) ((i : ℝ) - ycen + 3/8) ≤ 9 ∧
      cornerExpon w11 w12 w22 ((j : ℝ) - xcen - 3/8) ((i : ℝ) - ycen + 3/8) ≤ 9 ∧
      cornerExpon w11 w12 w22 ((j : ℝ) - xcen + 3/8) ((i : ℝ) - ycen - 3/8) ≤ 9) →
      interpContrib fluxOnly xcen ycen bkgd w11 w12 w22 v j i =
        subGridMoments fluxOnly xcen ycen w11 w12 w22 (v - bkgd)
          ((j : ℝ) - xcen - 3/8) ((i : ℝ) - ycen - 3/8)) ∧
    ((9 < cornerExpon w11 w12 w22 ((j : ℝ) - xcen - 3/8) ((i : ℝ) - ycen - 3/8) ∨
      9 < cornerExpon w11 w12 w22 ((j : ℝ) - xcen + 3/8) ((i : ℝ) - ycen + 3/8) ∨
      9 < cornerExpon w11 w12 w22 ((j : ℝ) - xcen - 3/8) ((i : ℝ) - ycen + 3/8) ∨
      9 < cornerExpon w11 w12 w22 ((j : ℝ) - xcen + 3/8) ((i : ℝ) - ycen - 3/8)) →
      interpContrib fluxOnly xcen ycen bkgd w11 w12 w22 v j i = Moments.zero) := by
  constructor
  · rintro ⟨h1, h2, h3, h4⟩
    simp only [interpContrib]
    rw [if_pos (max_le (max_le (max_le h1 h2) h3) h4)]
  · intro h
    simp only [interpContrib]
    rw [if_neg (not_le.mpr ?_)]
    rcases h with h | h | h | h
    · exact lt_of_lt_of_le h
        ((le_max_left _ _).trans ((le_max_left _ _).trans (le_max_left _ _)))
    · exact lt_of_lt_of_le h
        ((le_max_right _ _).trans ((le_max_left _ _).trans (le_max_left _ _)))
    · exact lt_of_lt_of_le h ((le_max_right _ _).trans (le_max_left _ _))
    · exact lt_of_lt_of_le h (le_max_right _ _)

/-- Witness for C1 (amended): with zero weights all four corner exponents are
0 ≤ 9, so the cell is accumulated as the full sub-grid. -/
theorem claim_C1_witness :
    interpContrib false 0 0 0 0 0 0 1 0 0 =
      subGridMoments false 0 0 0 0 0 1 (((0 : ℤ) : ℝ) - 0 - 3/8)
        (((0 : ℤ) : ℝ) - 0 - 3/8) := by
  have h := (claim_C1 false 0 0 0 0 0 0 1 0 0).1
    (by norm_num [cornerExpon])
  simpa using h

/- ------------------------------------------------------------------ -/
/- Loop lemmas for getAdaptiveMoments.                                 -/
/- ------------------------------------------------------------------ -/

theorem amomStep3_cases (xcen ycen shiftmax : ℝ) (s : AmomState) (bbox : Box)
    (detW : ℝ) (w11 w12 w22 : ℝ) (iterAdj : ℕ) (s11owOld : ℝ) (interp : Bool)
    (m : Moments) :
    (∃ s2, amomStep3 xcen ycen shiftmax s bbox detW w11 w12 w22 iterAdj
        s11owOld interp m = .break_ s2 ∧ s2.iter = iterAdj ∧
        s2.interpflag = interp) ∨
    (∃ s2, amomStep3 xcen ycen shiftmax s bbox detW w11 w12 w22 iterAdj
        s11owOld interp m = .cont s2 ∧ s2.iter = iterAdj + 1 ∧
        s2.interpflag = interp) := by
  simp only [amomStep3]
  split_ifs
  all_goals
    first
    | exact Or.inl ⟨_, rfl, rfl, rfl⟩
    | exact Or.inr ⟨_, rfl, rfl, rfl⟩

theorem amomStep2_cases (img : Image) (bkgd xcen ycen shiftmax : ℝ)
    (s : AmomState) (bbox : Box) (detW : ℝ) (w11 w12 w22 : ℝ) (iterAdj : ℕ)
    (s11owOld : ℝ) (interp : Bool) :
    (∃ s2, amomStep2 img bkgd xcen ycen shiftmax s bbox detW w11 w12 w22
        iterAdj s11owOld interp = .break_ s2 ∧ s2.iter = iterAdj ∧
        s2.interpflag = interp) ∨
    (∃ s2, amomStep2 img bkgd xcen ycen shiftmax s bbox detW w11 w12 w22
        iterAdj s11owOld interp = .cont s2 ∧ s2.iter = iterAdj + 1 ∧
        s2.interpflag = interp) := by
  unfold amomStep2
  cases hcm : calcmom false img xcen ycen bbox bkgd interp w11 w12 w22 with
  | earlyFail => exact Or.inl ⟨_, rfl, rfl, rfl⟩
  | computed m ok =>
    cases ok with
    | false => exact Or.inl ⟨_, rfl, rfl, rfl⟩
    | true =>
      exact amomStep3_cases xcen ycen shiftmax s bbox detW w11 w12 w22 iterAdj
        s11owOld interp m

theorem amomMeasure_interp (s : AmomState) (h : s.interpflag = true) :
    amomMeasure s = MAXIT - s.iter := by
  unfold amomMeasure
  rw [h]
  simp

theorem amomMeasure_noInterp (s : AmomState) (h : s.interpflag = false) :
    amomMeasure s = (MAXIT - s.iter) + 1 := by
  unfold amomMeasure
  rw [h]
  simp

theorem amomBody_cases (img : Image) (bkgd xcen ycen shiftmax : ℝ)
    (s : AmomState) (h : s.iter < MAXIT) :
    (∃ s2, amomBody img bkgd xcen ycen shiftmax s = .break_ s2 ∧
      s2.iter ≤ s.iter) ∨
    (∃ s2, amomBody img bkgd xcen ycen shiftmax s = .cont s2 ∧
      s2.iter ≤ MAXIT ∧ amomMeasure s2 < amomMeasure s) := by
  unfold amomBody
  split_ifs with hgw hint hit
  · exact Or.inl ⟨_, rfl, le_rfl⟩
  · rcases amomStep2_cases img bkgd xcen ycen shiftmax s
        (set_amom_bbox img.width img.height xcen ycen s.sigma11W s.sigma12W
          s.sigma22W 1000)
        (getWeights s.sigma11W s.sigma12W s.sigma22W).det
        s.w11 s.w12 s.w22 (s.iter - 1) 1000000 true with
      ⟨s2, heq, hi, _⟩ | ⟨s2, heq, hi, hf⟩
    · exact Or.inl ⟨s2, heq, by omega⟩
    · refine Or.inr ⟨s2, heq, by omega, ?_⟩
      rw [amomMeasure_interp s2 hf, amomMeasure_noInterp s hint.2]
      omega
  · rcases amomStep2_cases img bkgd xcen ycen shiftmax s
        (set_amom_bbox img.width img.height xcen ycen s.sigma11W s.sigma12W
          s.sigma22W 1000)
        (getWeights s.sigma11W s.sigma12W s.sigma22W).det
        (getWeights s.sigma11W s.sigma12W s.sigma22W).w11
        (getWeights s.sigma11W s.sigma12W s.sigma22W).w12
        (getWeights s.sigma11W s.sigma12W s.sigma22W).w22
        s.iter s.sigma11_ow_old true with
      ⟨s2, heq, hi, _⟩ | ⟨s2, heq, hi, hf⟩
    · exact Or.inl ⟨s2, heq, by omega⟩
    · refine Or.inr ⟨s2, heq, by omega, ?_⟩
      rw [amomMeasure_interp s2 hf, amomMeasure_noInterp s hint.2]
      omega
  · rcases amomStep2_cases img bkgd xcen ycen shiftmax s
        (set_amom_bbox img.width img.height xcen ycen s.sigma11W s.sigma12W
          s.sigma22W 1000)
        (getWeights s.sigma11W s.sigma12W s.sigma22W).det
        (getWeights s.sigma11W s.sigma12W s.sigma22W).w11
        (getWeights s.sigma11W s.sigma12W s.sigma22W).w12
        (getWeights s.sigma11W s.sigma12W s.sigma22W).w22
        s.iter s.sigma11_ow_old s.interpflag with
      ⟨s2, heq, hi, _⟩ | ⟨s2, heq, hi, hf⟩
    · exact Or.inl ⟨s2, heq, by omega⟩
    · refine Or.inr ⟨s2, heq, by omega, ?_⟩
      cases hsi : s.interpflag with
      | false =>
        rw [amomMeasure_noInterp s2 (hf.trans hsi), amomMeasure_noInterp s hsi]
        omega
      | true =>
        rw [amomMeasure_interp s2 (hf.trans hsi), amomMeasure_interp s hsi]
        omega

theorem amomRun_zero (img : Image) (bkgd xcen ycen shiftmax : ℝ)
    (s : AmomState) :
    amomRun img bkgd xcen ycen shiftmax 0 s =
      if MAXIT ≤ s.iter then .done s else .exhausted := rfl

theorem amomRun_step (img : Image) (bkgd xcen ycen shiftmax : ℝ) (f : ℕ)
    (s : AmomState) :
    amomRun img bkgd xcen ycen shiftmax (f + 1) s =
      if MAXIT ≤ s.iter then .done s
      else
        match amomBody img bkgd xcen ycen shiftmax s with
        | .break_ s2 => .done s2
        | .cont s2 => amomRun img bkgd xcen ycen shiftmax f s2 := rfl

theorem amomRun_done (img : Image) (bkgd xcen ycen shiftmax : ℝ) :
    ∀ (fuel : ℕ) (s : AmomState), s.iter ≤ MAXIT → amomMeasure s ≤ fuel →
      ∃ s2, amomRun img bkgd xcen ycen shiftmax fuel s = .done s2 ∧
        s2.iter ≤ MAXIT := by
  intro fuel
  induction fuel with
  | zero =>
    intro s hle hm
    have hgd : MAXIT ≤ s.iter := by
      cases hb : s.interpflag with
      | false =>
        rw [amomMeasure_noInterp s hb] at hm
        omega
      | true =>
        rw [amomMeasure_interp s hb] at hm
        omega
    exact ⟨s, by rw [amomRun_zero, if_pos hgd], hle⟩
  | succ f ih =>
    intro s hle hm
    by_cases hgd : MAXIT ≤ s.iter
    · exact ⟨s, by rw [amomRun_step, if_pos hgd], hle⟩
    · have hlt : s.iter < MAXIT := lt_of_not_le hgd
      rcases amomBody_cases img bkgd xcen ycen shiftmax s hlt with
        ⟨s2, heq, hi2⟩ | ⟨s2, heq, hi2, hmeas⟩
      · refine ⟨s2, ?_, le_trans hi2 hle⟩
        rw [amomRun_step, if_neg hgd, heq]
      · have hm2 : amomMeasure s2 ≤ f := by omega
        obtain ⟨s3, hrun3, hle3⟩ := ih s2 hi2 hm2
        refine ⟨s3, ?_, hle3⟩
        rw [amomRun_step, if_neg hgd, heq]
        exact hrun3

theorem amomRun_init_done (img : Image) (bkgd xcen ycen shiftmax : ℝ) :
    ∃ s, amomRun img bkgd xcen ycen shiftmax (MAXIT + 1) initState = .done s ∧
      s.iter ≤ MAXIT := by
  refine amomRun_done img bkgd xcen ycen shiftmax (MAXIT + 1) initState
    (Nat.zero_le _) ?_
  unfold amomMeasure
  rw [show initState.iter = 0 from rfl, show initState.interpflag = false from rfl]
  simp

theorem calcmom_full_pos (img : Image) (xcen ycen : ℝ) (bbox : Box)
    (bkgd : ℝ) (interpflag : Bool) (w11 w12 w22 : ℝ) (m : Moments)
    (h : calcmom false img xcen ycen bbox bkgd interpflag w11 w12 w22 =
      .computed m true) :
    0 < m.sum ∧ 0 < m.sumxx ∧ 0 < m.sumyy := by
  unfold calcmom at h
  by_cases h1 : 1000000 < |w11| ∨ 1000000 < |w12| ∨ 1000000 < |w22|
  · rw [if_pos h1] at h
    exact CalcRet.noConfusion h
  · rw [if_neg h1] at h
    by_cases h2 : bbox.x0 < 0 ∨ img.width ≤ bbox.x1 ∨ bbox.y0 < 0 ∨
      img.height ≤ bbox.y1
    · rw [if_pos h2] at h
      exact CalcRet.noConfusion h
    · rw [if_neg h2] at h
      by_cases h3 : (false : Bool) = true ∨
        (0 < (boxMoments false interpflag img xcen ycen bkgd w11 w12 w22 bbox).sum ∧
          0 < (boxMoments false interpflag img xcen ycen bkgd w11 w12 w22 bbox).sumxx ∧
          0 < (boxMoments false interpflag img xcen ycen bkgd w11 w12 w22 bbox).sumyy)
      · rw [if_pos h3] at h
        injection h with hm hok
        rcases h3 with hft | hpos
        · exact Bool.noConfusion hft
        · rw [← hm]
          exact hpos
      · rw [if_neg h3] at h
        injection h with hm hok
        exact Bool.noConfusion hok

/- ------------------------------------------------------------------ -/
/- The concrete run on the 1×1 zero image.                             -/
/- ------------------------------------------------------------------ -/

theorem calcmom_zeroImg0 (fluxOnly : Bool) (w11 w12 w22 : ℝ)
    (h1 : |w11| ≤ 1000000) (h2 : |w12| ≤ 1000000) (h3 : |w22| ≤ 1000000) :
    calcmom fluxOnly zeroImg 0 0 ⟨0, 0, 0, 0⟩ 0 false w11 w12 w22 =
      .computed Moments.zero fluxOnly := by
  rw [calcmom_zeroImg fluxOnly 0 w11 w12 w22 h1 h2 h3]
  norm_num [Moments.zero, CalcRet.computed.injEq, Moments.mk.injEq]

theorem zeroBody : amomBody zeroImg 0 0 0 1 initState = .break_ sZero := by
  unfold amomBody
  rw [show initState.sigma11W = (3/2 : ℝ) from rfl,
    show initState.sigma12W = (0 : ℝ) from rfl,
    show initState.sigma22W = (3/2 : ℝ) from rfl,
    getWeights_init]
  rw [if_neg (show ¬ ((GW.mk true (9/4) (2/3) 0 (2/3)).success = false) from
    fun hh => Bool.noConfusion hh)]
  rw [show (GW.mk true (9/4) (2/3) 0 (2/3)).det = (9/4 : ℝ) from rfl,
    getInterp_init]
  rw [if_neg (show ¬ ((false : Bool) = true ∧ initState.interpflag = false) from
    fun hh => Bool.noConfusion hh.1)]
  rw [show zeroImg.width = (1 : ℤ) from rfl,
    show zeroImg.height = (1 : ℤ) from rfl, box_init_eval]
  rw [show (GW.mk true (9/4) (2/3) 0 (2/3)).w11 = (2/3 : ℝ) from rfl,
    show (GW.mk true (9/4) (2/3) 0 (2/3)).w12 = (0 : ℝ) from rfl,
    show (GW.mk true (9/4) (2/3) 0 (2/3)).w22 = (2/3 : ℝ) from rfl,
    show initState.iter = 0 from rfl,
    show initState.sigma11_ow_old = (1000000 : ℝ) from rfl,
    show initState.interpflag = false from rfl]
  unfold amomStep2
  rw [calcmom_zeroImg0 false (2/3) 0 (2/3)
    (by rw [abs_of_nonneg (by norm_num)]; norm_num) (by simp)
    (by rw [abs_of_nonneg (by norm_num)]; norm_num)]
  rfl

theorem zeroRun :
    amomRun zeroImg 0 0 0 1 (MAXIT + 1) initState = .done sZero := by
  rw [amomRun_step,
    if_neg (show ¬ (MAXIT ≤ initState.iter) from by decide), zeroBody]

theorem adjFlags_sZero :
    adjFlags sZero =
      { unweighted := true, unweightedBad := false,
        maxIter := false, shift := false } := by
  simp only [adjFlags]
  rw [if_neg (show ¬ (sZero.iter = MAXIT) from by decide)]
  rw [if_pos (show sZero.moms.sumxx + sZero.moms.sumyy = 0 from by
    norm_num [sZero, Moments.zero])]
  rfl

theorem calcmom_sZero_fallback :
    calcmom false zeroImg 0 0 sZero.bbox 0 sZero.interpflag 0 0 0 =
      .computed Moments.zero false := by
  rw [show sZero.bbox = (⟨0, 0, 0, 0⟩ : Box) from rfl,
    show sZero.interpflag = false from rfl]
  exact calcmom_zeroImg0 false 0 0 0 (by simp) (by simp) (by simp)

/- ------------------------------------------------------------------ -/
/- Claims C5 and C3.                                                   -/
/- ------------------------------------------------------------------ -/

/-- C5: the adaptive loop of `getAdaptiveMoments` always terminates — fuel
`MAXIT + 1` body executions suffices for every input — with a loop counter of
at most `MAXIT` = 100 counted iterations; and whenever the loop exits with the
counter at `MAXIT`, both the MAXITER and the UNWEIGHTED flags are raised, so
the post-loop processing produces the final answer through the
unweighted-fallback path. -/
theorem claim_C5 :
    (∀ (img : Image) (bkgd xcen ycen shiftmax : ℝ),
      amomRun img bkgd xcen ycen shiftmax (MAXIT + 1) initState ≠ .exhausted) ∧
    (∀ (img : Image) (bkgd xcen ycen shiftmax : ℝ) (s : AmomState),
      amomRun img bkgd xcen ycen shiftmax (MAXIT + 1) initState = .done s →
      s.iter ≤ MAXIT) ∧
    (∀ (img : Image) (bkgd xcen ycen : ℝ) (s : AmomState), s.iter = MAXIT →
      (adjFlags s).maxIter = true ∧ (adjFlags s).unweighted = true ∧
      amomPost img bkgd xcen ycen s =
        fallbackPath img bkgd xcen ycen s (adjFlags s)) := by
  refine ⟨?_, ?_, ?_⟩
  · intro img bkgd xcen ycen shiftmax
    obtain ⟨s, hs, _⟩ := amomRun_init_done img bkgd xcen ycen shiftmax
    rw [hs]
    intro hcon
    exact RunRes.noConfusion hcon
  · intro img bkgd xcen ycen shiftmax s hdone
    obtain ⟨s0, hs0, hle⟩ := amomRun_init_done img bkgd xcen ycen shiftmax
    rw [hs0] at hdone
    injection hdone with hh
    rw [← hh]
    exact hle
  · intro img bkgd xcen ycen s hiter
    have hf1 : (if s.iter = MAXIT then
        { s.flags with maxIter := true, unweighted := true } else s.flags) =
        { s.flags with maxIter := true, unweighted := true } := if_pos hiter
    have hmax : (adjFlags s).maxIter = true := by
      simp only [adjFlags, hf1]
      split_ifs
      · rfl
      · rfl
    have hun : (adjFlags s).unweighted = true := by
      simp only [adjFlags, hf1]
      split_ifs
      · rfl
      · rfl
    refine ⟨hmax, hun, ?_⟩
    unfold amomPost
    rw [if_pos hun]

/-- Witness for C5: the concrete terminating run on the zero image (parts 1
and 2), and part 3 applied at a state whose counter sits at the cap. -/
theorem claim_C5_witness :
    sZero.iter ≤ MAXIT ∧
      (adjFlags { initState with iter := MAXIT }).maxIter = true :=
  ⟨claim_C5.2.1 zeroImg 0 0 0 1 sZero zeroRun,
    (claim_C5.2.2 zeroImg 0 0 0 { initState with iter := MAXIT } rfl).1⟩

/-- C3 counterexample: on the 1×1 all-zero image the loop breaks with
UNWEIGHTED, the zero-weight rerun also fails with sum = 0, and the call
returns failure with UNWEIGHTED_BAD — but the default single-pixel moments
are NOT stored (the `if (sum > 0)` guard fails): the Ixx slot is left unset,
not 1/12 as the claim states. -/
theorem claim_C3_counterexample :
    (getAdaptiveMoments zeroImg 0 0 0 1).1 = false ∧
    (getAdaptiveMoments zeroImg 0 0 0 1).2.flags.unweightedBad = true ∧
    (getAdaptiveMoments zeroImg 0 0 0 1).2.ixx = none ∧
    ¬ (getAdaptiveMoments zeroImg 0 0 0 1).2.ixx = some (1/12) := by
  have hres : getAdaptiveMoments zeroImg 0 0 0 1 =
      fallbackShape sZero (adjFlags sZero) Moments.zero.sum := by
    unfold getAdaptiveMoments
    rw [zeroRun]
    show amomPost zeroImg 0 0 0 sZero = _
    unfold amomPost
    rw [if_pos (by rw [adjFlags_sZero])]
    simp only [fallbackPath, calcmom_sZero_fallback]
    rw [if_pos (Or.inl trivial)]
  rw [hres]
  refine ⟨rfl, rfl, ?_, ?_⟩
  · simp only [fallbackShape]
    rw [if_neg (show ¬ (0 < Moments.zero.sum) from by norm_num [Moments.zero])]
  · simp only [fallbackShape]
    rw [if_neg (show ¬ (0 < Moments.zero.sum) from by norm_num [Moments.zero])]
    simp

/-- C3 (amended): when the UNWEIGHTED flag is set after the loop,
`getAdaptiveMoments` reruns the accumulator with weights (0,0,0) over the
last box; if that rerun fails or its sum is ≤ 0 the call returns failure with
the UNWEIGHTED_BAD flag (UNWEIGHTED cleared), storing the default
single-pixel moments (1/12, 0, 1/12) only when the rerun's sum is positive
and leaving the moments unset otherwise; if the rerun succeeds, the
unweighted raw moments (sumxx/sum, sumxy/sum, sumyy/sum) are reported as the
final shape. -/
theorem claim_C3 (img : Image) (bkgd xcen ycen shiftmax : ℝ) (s : AmomState)
    (hrun : amomRun img bkgd xcen ycen shiftmax (MAXIT + 1) initState =
      .done s)
    (hu : (adjFlags s).unweighted = true) :
    getAdaptiveMoments img bkgd xcen ycen shiftmax =
      fallbackPath img bkgd xcen ycen s (adjFlags s) ∧
    ∀ m ok, calcmom false img xcen ycen s.bbox bkgd s.interpflag 0 0 0 =
        .computed m ok →
      ((ok = false ∨ m.sum ≤ 0) →
        (fallbackPath img bkgd xcen ycen s (adjFlags s)).1 = false ∧
        (fallbackPath img bkgd xcen ycen s (adjFlags s)).2.flags.unweightedBad
          = true ∧
        (fallbackPath img bkgd xcen ycen s (adjFlags s)).2.flags.unweighted
          = false ∧
        (0 < m.sum →
          (fallbackPath img bkgd xcen ycen s (adjFlags s)).2.ixx =
            some (1/12) ∧
          (fallbackPath img bkgd xcen ycen s (adjFlags s)).2.ixy = some 0 ∧
          (fallbackPath img bkgd xcen ycen s (adjFlags s)).2.iyy =
            some (1/12)) ∧
        (m.sum ≤ 0 →
          (fallbackPath img bkgd xcen ycen s (adjFlags s)).2.ixx = none)) ∧
      (ok = true →
        (fallbackPath img bkgd xcen ycen s (adjFlags s)).1 = true ∧
        (fallbackPath img bkgd xcen ycen s (adjFlags s)).2.ixx =
          some (m.sumxx / m.sum) ∧
        (fallbackPath img bkgd xcen ycen s (adjFlags s)).2.ixy =
          some (m.sumxy / m.sum) ∧
        (fallbackPath img bkgd xcen ycen s (adjFlags s)).2.iyy =
          some (m.sumyy / m.sum)) := by
  constructor
  · unfold getAdaptiveMoments
    rw [hrun]
    show amomPost img bkgd xcen ycen s = _
    unfold amomPost
    rw [if_pos hu]
  · intro m ok hcm
    constructor
    · intro hbad
      simp only [fallbackPath, hcm]
      rw [if_pos hbad]
      refine ⟨rfl, rfl, rfl, ?_, ?_⟩
      · intro hpos
        refine ⟨?_, ?_, ?_⟩ <;> simp [fallbackShape, if_pos hpos]
      · intro hle
        simp only [fallbackShape]
        rw [if_neg (not_lt.mpr hle)]
    · intro hok
      subst hok
      have hpos := calcmom_full_pos img xcen ycen s.bbox bkgd s.interpflag
        0 0 0 m hcm
      have hng : ¬ ((true : Bool) = false ∨ m.sum ≤ 0) := by
        rintro (hh | hh)
        · exact Bool.noConfusion hh
        · exact absurd hpos.1 (not_lt.mpr hh)
      simp only [fallbackPath, hcm]
      rw [if_neg hng]
      exact ⟨rfl, rfl, rfl, rfl⟩

/-- Witness for C3 (amended): the failing-rerun branch applied at the
concrete zero-image run. -/
theorem claim_C3_witness :
    (fallbackPath zeroImg 0 0 0 sZero (adjFlags sZero)).1 = false ∧
    (fallbackPath zeroImg 0 0 0 sZero (adjFlags sZero)).2.flags.unweightedBad
      = true := by
  have hu : (adjFlags sZero).unweighted = true := by rw [adjFlags_sZero]
  have h := ((claim_C3 zeroImg 0 0 0 1 sZero zeroRun hu).2 Moments.zero false
    calcmom_sZero_fallback).1 (Or.inl rfl)
  exact ⟨h.1, h.2.1⟩

end

end Sdss
